import Mathlib

/-!
Shallow embedding of the App-Contas core (expense splitting between two
houses) and proofs about it.

Sources embedded:
* `src/models/expense_models.py` — data model (`ElectricityData`,
  `RecurringBills`, `OccasionalExpense`, `Payment`, `MonthData`) and its
  per-record `validate` methods;
* `src/core/calculator.py` — `ExpenseCalculator` (electricity, recurring
  bills, occasional expenses, totals, balances, projection);
* `src/models/validation.py` — `ValidationResult` and `ElectricityValidator`;
* `src/core/data_manager.py` — `DataManager.repair_data`.

Conventions of the embedding:
* Python `Decimal` values are modelled as exact rationals (`ℚ`).  The code
  runs in Python's default `Decimal` context (28 significant digits); at the
  two-decimal-place magnitudes handled here every intermediate product and
  quotient is either exact or rounds identically, so division and
  multiplication are modelled exactly and only the explicit `quantize` calls
  round.
* `datetime` timestamps are modelled as integers ordered by time; only their
  ordering (`modified_at > created_at`) and presence are ever consulted.
* Python dicts built key-by-key (the calculator's result dicts, the stored
  month dicts) are modelled as association lists in insertion order.
-/

namespace AppContas

/-- `Decimal.quantize(Decimal('0.01'), rounding=ROUND_HALF_UP)` expressed on
the number of cents: round to the nearest integer, ties away from zero
(Python's `ROUND_HALF_UP`). -/
def roundHalfUpCents (x : ℚ) : ℤ :=
  if 0 ≤ x then ⌊x * 100 + 1 / 2⌋ else -⌊-x * 100 + 1 / 2⌋

/-- Round a monetary value to two decimal places, half away from zero —
the `quantize(Decimal('0.01'), rounding=ROUND_HALF_UP)` used throughout
the calculator. -/
def quantize2 (x : ℚ) : ℚ := (roundHalfUpCents x : ℚ) / 100

/-- `SplitMethod` enum of `expense_models.py`. -/
inductive SplitMethod where
  | percentage
  | fixed
  | equal
deriving DecidableEq, Repr

/-- `ExpenseCategory` enum of `expense_models.py` (carried through the
calculator untouched). -/
inductive ExpenseCategory where
  | maintenance | groceries | cleaning | utilities | furniture
  | electronics | garden | repairs | security | other
deriving DecidableEq, Repr

/-- `ElectricityData` dataclass.  The metadata fields (`meter_reading_date`,
`due_date`, `notes`) are omitted: no embedded operation reads them. -/
structure ElectricityData where
  total_kwh : ℚ
  casa2_kwh : ℚ
  total_bill : ℚ
  rate_per_kwh : Option ℚ
deriving DecidableEq, Repr

/-- `RecurringBills` dataclass (metadata `notes` omitted). -/
structure RecurringBills where
  water : ℚ
  internet : ℚ
  gas : ℚ
  casa2_percentage : ℚ
deriving DecidableEq, Repr

/-- `OccasionalExpense` dataclass.  `id`, `paid_by`, `notes`, `receipt_path`
are omitted: no embedded operation reads them.  `date_added`/`due_date` are
integer timestamps (only the order `due_date < date_added` is consulted). -/
structure OccasionalExpense where
  description : String
  amount : ℚ
  split_method : SplitMethod
  casa1_value : ℚ
  casa2_value : ℚ
  percentage : Option ℚ
  category : ExpenseCategory
  date_added : Int
  due_date : Option Int
  is_recurring : Bool
  recurrence_months : Int
deriving DecidableEq, Repr

/-- `Payment` dataclass (`payment_date`, `payment_method`, `transaction_id`,
`notes`, `attachments` omitted: the embedded `validate` reads only the two
amounts). -/
structure Payment where
  casa1_paid : ℚ
  casa2_paid : ℚ
deriving DecidableEq, Repr

/-- `Payment.total_paid`. -/
def Payment.total_paid (p : Payment) : ℚ := p.casa1_paid + p.casa2_paid

/-- `MonthData` dataclass (`id`, `notes`, `reminders`, `tags`,
`calculation_cache` omitted; timestamps are integers). -/
structure MonthData where
  year : Int
  month : String
  electricity : ElectricityData
  recurring_bills : RecurringBills
  occasional_expenses : List OccasionalExpense
  payments : Payment
  created_at : Int
  modified_at : Int
  is_locked : Bool
deriving DecidableEq, Repr

/-! ## Model-level validation (`expense_models.py`) -/

/-- `ElectricityData.validate` — the exact list of error strings, in source
order. -/
def ElectricityData.validate (e : ElectricityData) : List String :=
  (if e.total_kwh < 0 then ["Total kWh cannot be negative"] else []) ++
  (if e.casa2_kwh < 0 then ["Casa 2 kWh cannot be negative"] else []) ++
  (if e.casa2_kwh > e.total_kwh then ["Casa 2 kWh cannot exceed total kWh"] else []) ++
  (if e.total_bill < 0 then ["Total bill cannot be negative"] else []) ++
  (match e.rate_per_kwh with
   | some r => if r < 0 then ["Rate per kWh cannot be negative"] else []
   | none => []) ++
  (if e.total_kwh > 10000 then ["Total kWh seems unrealistically high"] else []) ++
  (if e.total_bill > 50000 then ["Total bill seems unrealistically high"] else [])

/-- `RecurringBills.validate`. -/
def RecurringBills.validate (rb : RecurringBills) : List String :=
  (if rb.water < 0 then ["Water bill cannot be negative"] else []) ++
  (if rb.internet < 0 then ["Internet bill cannot be negative"] else []) ++
  (if rb.gas < 0 then ["Gas bill cannot be negative"] else []) ++
  (if ¬(0 ≤ rb.casa2_percentage ∧ rb.casa2_percentage ≤ 100) then
    ["Casa 2 percentage must be between 0 and 100"] else []) ++
  (if rb.water > 10000 then ["Water bill seems unrealistically high"] else []) ++
  (if rb.internet > 5000 then ["Internet bill seems unrealistically high"] else []) ++
  (if rb.gas > 10000 then ["Gas bill seems unrealistically high"] else [])

/-- `OccasionalExpense.validate`. -/
def OccasionalExpense.validate (e : OccasionalExpense) : List String :=
  (if e.description.trim = "" then ["Description is required"] else []) ++
  (if e.amount ≤ 0 then ["Amount must be greater than zero"] else []) ++
  (if e.split_method = SplitMethod.fixed then
    (if |e.casa1_value + e.casa2_value - e.amount| > 1 / 100 then
      ["Sum of fixed values must equal total amount"] else [])
   else []) ++
  (match e.percentage with
   | some p => if ¬(0 ≤ p ∧ p ≤ 100) then ["Percentage must be between 0 and 100"] else []
   | none => []) ++
  (if e.recurrence_months < 1 then ["Recurrence months must be at least 1"] else []) ++
  (if e.amount > 100000 then ["Amount seems unrealistically high"] else [])

/-- `Payment.validate`. -/
def Payment.validate (p : Payment) : List String :=
  (if p.casa1_paid < 0 then ["Casa 1 payment cannot be negative"] else []) ++
  (if p.casa2_paid < 0 then ["Casa 2 payment cannot be negative"] else []) ++
  (if p.total_paid = 0 then ["At least one payment must be greater than zero"] else []) ++
  (if p.casa1_paid > 100000 then ["Casa 1 payment seems unrealistically high"] else []) ++
  (if p.casa2_paid > 100000 then ["Casa 2 payment seems unrealistically high"] else [])

/-- `MonthData.validate` — year/month checks, the nested validations, the
index-prefixed expense errors and the locked check, in source order. -/
def MonthData.validate (m : MonthData) : List String :=
  (if ¬(2000 ≤ m.year ∧ m.year ≤ 2100) then ["Year must be between 2000 and 2100"] else []) ++
  (if m.month = "" then ["Month name is required"] else []) ++
  m.electricity.validate ++
  m.recurring_bills.validate ++
  m.payments.validate ++
  (m.occasional_expenses.enum.map (fun (i, e) =>
    e.validate.map fun err => s!"Expense {i + 1}: {err}")).flatten ++
  (if m.is_locked ∧ m.modified_at > m.created_at then ["Cannot modify locked month data"] else [])

/-! ## Calculation engine (`calculator.py`)

`ExpenseCalculator` is embedded at its default precision 2 (the constructor
default; the class is never instantiated with another precision), so every
`quantize(self._decimal_context, ROUND_HALF_UP)` is `quantize2`. -/

namespace ExpenseCalculator

/-- The dict returned by `_calculate_electricity`.  In the zero-consumption
branch the Python dict carries only the `casa1`/`casa2`/`total` keys; the kWh
fields below are zero there.  The two `*_percentage` entries (display-only
`float`s) are omitted: nothing embedded reads them. -/
structure ElectricityResult where
  casa1 : ℚ
  casa2 : ℚ
  total : ℚ
  casa1_kwh : ℚ
  casa2_kwh : ℚ
deriving DecidableEq, Repr

/-- `ExpenseCalculator._calculate_electricity`: the untruncated Casa 1 share
of the bill is quantized half-up, Casa 2 receives `total_bill - casa1_value`
("Ensure exact total"). -/
def calculate_electricity (e : ElectricityData) : ElectricityResult :=
  if e.total_kwh = 0 then
    { casa1 := 0, casa2 := 0, total := 0, casa1_kwh := 0, casa2_kwh := 0 }
  else
    let casa1_kwh := e.total_kwh - e.casa2_kwh
    let casa1_percentage := casa1_kwh / e.total_kwh
    let casa1_value := quantize2 (e.total_bill * casa1_percentage)
    let casa2_value := e.total_bill - casa1_value
    { casa1 := casa1_value, casa2 := casa2_value, total := e.total_bill,
      casa1_kwh := casa1_kwh, casa2_kwh := e.casa2_kwh }

/-- `ExpenseCalculator._calculate_recurring_bills`: the results dict in
insertion order.  Only `water` and `internet` are handled — the source has no
branch for `gas`.  (`casa1_percentage = 1 - casa2_percentage` is computed but
never used by the source; it is not reproduced.) -/
def calculate_recurring_bills (rb : RecurringBills) : List (String × ℚ) :=
  let casa2_percentage := rb.casa2_percentage / 100
  (if rb.water > 0 then
    let water_casa2 := quantize2 (rb.water * casa2_percentage)
    let water_casa1 := rb.water - water_casa2
    [("water_casa1", water_casa1), ("water_casa2", water_casa2),
     ("water_total", rb.water)]
  else []) ++
  (if rb.internet > 0 then
    let internet_casa2 := quantize2 (rb.internet * casa2_percentage)
    let internet_casa1 := rb.internet - internet_casa2
    [("internet_casa1", internet_casa1), ("internet_casa2", internet_casa2),
     ("internet_total", rb.internet)]
  else [])

/-- The Python comparison `expense.split_method == "fixed"` compares a
`SplitMethod` enum member against a plain `str`.  `SplitMethod` is a plain
`Enum` (not a `str` mix-in) and `Enum.__eq__` is identity-based, so the
comparison is `False` for every member — the embedding records exactly that
semantics. -/
def splitMethodEqStr (m : SplitMethod) (s : String) : Bool := false

/-- One entry of the list returned by `_calculate_occasional_expenses`. -/
structure OccasionalResult where
  description : String
  total : ℚ
  casa1 : ℚ
  casa2 : ℚ
  method : SplitMethod
  category : ExpenseCategory
deriving DecidableEq, Repr

/-- The loop body of `_calculate_occasional_expenses` for one expense.
Because `splitMethodEqStr` is always `false`, every expense — fixed, equal
or percentage, with or without an override — takes the percentage branch at
the month default. -/
def calc_occasional_item (e : OccasionalExpense) (default_casa2_percentage : ℚ) :
    OccasionalResult :=
  if splitMethodEqStr e.split_method "fixed" then
    { description := e.description, total := e.amount,
      casa1 := e.casa1_value, casa2 := e.casa2_value,
      method := e.split_method, category := e.category }
  else
    let casa2_percentage := default_casa2_percentage / 100
    let casa2_value := quantize2 (e.amount * casa2_percentage)
    let casa1_value := e.amount - casa2_value
    { description := e.description, total := e.amount,
      casa1 := casa1_value, casa2 := casa2_value,
      method := e.split_method, category := e.category }

/-- `ExpenseCalculator._calculate_occasional_expenses`. -/
def calculate_occasional_expenses (expenses : List OccasionalExpense)
    (default_casa2_percentage : ℚ) : List OccasionalResult :=
  expenses.map (fun e => calc_occasional_item e default_casa2_percentage)

/-- `ExpenseCalculator._calculate_totals`: the two running sums, folded in
source order (electricity, water, internet, then each occasional expense).
Returns `(casa1_should_pay, casa2_should_pay)`; `total_expenses` is their
sum. -/
def calculate_totals (elec : ElectricityResult) (recurring : List (String × ℚ))
    (occasional : List OccasionalResult) : ℚ × ℚ :=
  let get := fun k => (recurring.lookup k).getD 0
  let casa1 := occasional.foldl (fun acc e => acc + e.casa1)
    (elec.casa1 + get "water_casa1" + get "internet_casa1")
  let casa2 := occasional.foldl (fun acc e => acc + e.casa2)
    (elec.casa2 + get "water_casa2" + get "internet_casa2")
  (casa1, casa2)

/-- The three balance fields computed by `_calculate_balances`. -/
structure Balances where
  month_balance : ℚ
  final_house1 : ℚ
  final_house2 : ℚ
deriving DecidableEq, Repr

/-- `ExpenseCalculator._calculate_balances`: each house's balance is its
obligation minus its payment; the month balance is Casa 2's balance minus
Casa 1's; the carried balance is subtracted from Casa 1's final amount and
added to Casa 2's. -/
def calculate_balances (casa1_should_pay casa2_should_pay : ℚ) (payments : Payment)
    (previous_balance : ℚ) : Balances :=
  let casa1_balance := casa1_should_pay - payments.casa1_paid
  let casa2_balance := casa2_should_pay - payments.casa2_paid
  { month_balance := casa2_balance - casa1_balance,
    final_house1 := casa1_balance - previous_balance,
    final_house2 := casa2_balance + previous_balance }

/-- The `CalculationResult` a successful `calculate_month` would carry
(breakdown rows and metadata omitted — display only). -/
structure CalculationResult where
  electricity : ElectricityResult
  recurring : List (String × ℚ)
  occasional : List OccasionalResult
  casa1_should_pay : ℚ
  casa2_should_pay : ℚ
  total_expenses : ℚ
  previous_balance : ℚ
  month_balance : ℚ
  final_house1 : ℚ
  final_house2 : ℚ
deriving DecidableEq, Repr

/-- `ExpenseCalculator.calculate_month`, faithful to the Python control flow.
It first runs `month_data.validate()` and raises `ValueError` when the list
is non-empty.  When validation passes it executes
`CalculationResult(previous_balance=previous_balance)` — but
`previous_balance` is a read-only `@property` of the `CalculationResult`
dataclass (backed by the `balances` dict), not an `__init__` field, so the
constructor call raises `TypeError` for every input; the `except` clause
logs and re-raises.  (Had construction succeeded, the later assignments
`result.casa1_should_pay = ...`, `result.month_balance = ...` would raise
`AttributeError` the same way: those names are properties without setters.)
The embedded function therefore never returns `.ok`. -/
def calculate_month (m : MonthData) (previous_balance : ℚ) :
    Except String CalculationResult :=
  let validation_errors := m.validate
  if validation_errors ≠ [] then
    .error ("Data validation failed: " ++ String.intercalate ", " validation_errors)
  else
    .error "TypeError: CalculationResult.__init__() got an unexpected keyword argument: previous_balance"

/-- One month of `historical_data` as read by `project_next_month`: the three
Decimal fields of its `results` sub-dict. -/
structure HistEntry where
  total_expenses : ℚ
  casa1_should_pay : ℚ
  casa2_should_pay : ℚ
deriving DecidableEq, Repr

/-- Python's slice `l[-n:]`. -/
def lastN (n : Nat) (l : List α) : List α := l.drop (l.length - n)

/-- The projection dict (its Decimal entries).  `confidence` and
`volatility` are `float` quantities (they involve `** 0.5`) and are outside
the rational embedding; the two `*_with_balance` keys are absent in the
`no_data` branch, hence `Option`. -/
structure Projection where
  estimated_total : ℚ
  estimated_casa1 : ℚ
  estimated_casa2 : ℚ
  estimated_casa1_with_balance : Option ℚ
  estimated_casa2_with_balance : Option ℚ
  basis : String
deriving DecidableEq, Repr

/-- `ExpenseCalculator.project_next_month`, Decimal part.  The loop
`for i, month_data in enumerate(historical_data[-3:])` pairs index `i = 0`
with the OLDEST month of the slice and applies `weights[min(i, 2)]` with
`weights = [0.5, 0.3, 0.2]` — so the 0.5 weight lands on the oldest of the
last three months, although the source comments say "more recent = higher
weight" and "Most recent gets 50%". -/
def project_next_month (historical_data : List HistEntry) (current_balance : ℚ) :
    Projection :=
  if historical_data = [] then
    { estimated_total := 0, estimated_casa1 := 0, estimated_casa2 := 0,
      estimated_casa1_with_balance := none, estimated_casa2_with_balance := none,
      basis := "no_data" }
  else
    let weights : List ℚ := [1/2, 3/10, 1/5]
    let slice := lastN 3 historical_data
    let acc := slice.enum.foldl
      (fun (acc : ℚ × ℚ × ℚ × ℚ) (p : Nat × HistEntry) =>
        let weight := weights.getD (min p.1 2) 0
        (acc.1 + p.2.total_expenses * weight,
         acc.2.1 + p.2.casa1_should_pay * weight,
         acc.2.2.1 + p.2.casa2_should_pay * weight,
         acc.2.2.2 + weight))
      (0, 0, 0, 0)
    let total_weight := acc.2.2.2
    let estimated_total := if total_weight > 0 then acc.1 / total_weight else 0
    let estimated_casa1 := if total_weight > 0 then acc.2.1 / total_weight else 0
    let estimated_casa2 := if total_weight > 0 then acc.2.2.1 / total_weight else 0
    { estimated_total := estimated_total,
      estimated_casa1 := estimated_casa1,
      estimated_casa2 := estimated_casa2,
      estimated_casa1_with_balance := some (estimated_casa1 - current_balance),
      estimated_casa2_with_balance := some (estimated_casa2 + current_balance),
      basis := "last_" ++ toString slice.length ++ "months" }

end ExpenseCalculator

/-- `OccasionalExpense.calculate_split` (`expense_models.py`): the split the
data model itself would compute — `fixed` returns the stored pair `(casa1,
casa2)`, `equal` gives Casa 1 the half-up-rounded half and Casa 2 the
remainder, `percentage` rounds Casa 2's share (override percentage first,
then the supplied default, then 50) and gives Casa 1 the remainder. -/
def OccasionalExpense.calculate_split (e : OccasionalExpense)
    (default_casa2_percentage : Option ℚ) : ℚ × ℚ :=
  match e.split_method with
  | SplitMethod.fixed => (e.casa1_value, e.casa2_value)
  | SplitMethod.equal =>
      let half := quantize2 (e.amount / 2)
      (half, e.amount - half)
  | SplitMethod.percentage =>
      let casa2_percent :=
        match e.percentage with
        | some p => p
        | none =>
          match default_casa2_percentage with
          | some d => d
          | none => 50
      let casa2_amount := quantize2 (e.amount * casa2_percent / 100)
      (e.amount - casa2_amount, casa2_amount)

/-! ## Validation framework (`validation.py`) -/

/-- `ValidationError` dataclass (`value` and `context` — display metadata of
arbitrary type — omitted). -/
structure ValidationError where
  field : String
  message : String
  code : String
  severity : String
deriving DecidableEq, Repr

/-- `ValidationResult` dataclass. -/
structure ValidationResult where
  is_valid : Bool
  errors : List ValidationError
  warnings : List ValidationError
deriving DecidableEq, Repr

/-- A freshly constructed `ValidationResult()` after `__post_init__`
(`is_valid = len(errors) == 0` with empty lists). -/
def ValidationResult.init : ValidationResult :=
  { is_valid := true, errors := [], warnings := [] }

/-- `ValidationResult.add_error`: appends an `error`-severity entry and sets
`is_valid = False`. -/
def ValidationResult.add_error (r : ValidationResult) (f message code : String) :
    ValidationResult :=
  { r with errors := r.errors ++ [⟨f, message, code, "error"⟩], is_valid := false }

/-- `ValidationResult.add_warning`: appends a `warning`-severity entry;
`is_valid` is untouched. -/
def ValidationResult.add_warning (r : ValidationResult) (f message code : String) :
    ValidationResult :=
  { r with warnings := r.warnings ++ [⟨f, message, code, "warning"⟩] }

/-- The validators' `result.errors.extend(...)` — a direct list extension
that does NOT update `is_valid`. -/
def ValidationResult.extend_errors (r : ValidationResult) (es : List ValidationError) :
    ValidationResult :=
  { r with errors := r.errors ++ es }

/-- `ValidationResult.merge`: concatenates both lists and recomputes
`is_valid = len(self.errors) == 0` from the combined error list. -/
def ValidationResult.merge (r other : ValidationResult) : ValidationResult :=
  let errors := r.errors ++ other.errors
  { is_valid := errors.isEmpty, errors := errors, warnings := r.warnings ++ other.warnings }

/-- `BaseValidator._validate_decimal_range` (the numeric rendering inside the
messages is Lean's rational rendering; nothing embedded reads the text). -/
def validate_decimal_range (value : ℚ) (f : String) (min_value max_value : Option ℚ)
    (allow_zero allow_negative : Bool) : List ValidationError :=
  (if ¬allow_negative ∧ value < 0 then
    [⟨f, f ++ " cannot be negative", "NEGATIVE_VALUE", "error"⟩] else []) ++
  (if ¬allow_zero ∧ value = 0 then
    [⟨f, f ++ " cannot be zero", "ZERO_VALUE", "error"⟩] else []) ++
  (match min_value with
   | some mn =>
     if value < mn then [⟨f, s!"{f} must be at least {mn}", "VALUE_TOO_LOW", "error"⟩] else []
   | none => []) ++
  (match max_value with
   | some mx =>
     if value > mx then [⟨f, s!"{f} cannot exceed {mx}", "VALUE_TOO_HIGH", "error"⟩] else []
   | none => [])

/-- `ElectricityValidator.validate` with the given `strict_mode` (the
`custom_rules` list is empty at construction and `add_custom_rule` is never
called on it in the repository, so `_apply_custom_rules` appends nothing;
the `isinstance` guard cannot fire in a typed embedding). -/
def ElectricityValidator.validate (strict_mode : Bool) (data : ElectricityData) :
    ValidationResult :=
  let result := ValidationResult.init
  let result := result.extend_errors
    (validate_decimal_range data.total_kwh "total_kwh" (some 0) (some 10000) true false)
  let result := result.extend_errors
    (validate_decimal_range data.casa2_kwh "casa2_kwh" (some 0) (some data.total_kwh) true false)
  let result := result.extend_errors
    (validate_decimal_range data.total_bill "total_bill" (some 0) (some 50000) true false)
  let result :=
    match data.rate_per_kwh with
    | some r => result.extend_errors
        (validate_decimal_range r "rate_per_kwh" (some 0) (some 10) true false)
    | none => result
  let result :=
    if data.total_kwh > 0 ∧ data.total_bill > 0 ∧ data.total_bill / data.total_kwh > 5 then
      result.add_warning "rate_per_kwh" "Calculated rate per kWh seems unusually high" "HIGH_RATE"
    else result
  let result :=
    if data.casa2_kwh > data.total_kwh then
      result.add_error "casa2_kwh" "Casa 2 consumption cannot exceed total consumption"
        "INVALID_PROPORTION"
    else result
  let result :=
    if strict_mode ∧ data.total_kwh = 0 ∧ data.total_bill > 0 then
      result.add_error "total_kwh" "Cannot have bill amount without consumption"
        "INCONSISTENT_DATA"
    else result
  let result :=
    if strict_mode ∧ data.total_bill = 0 ∧ data.total_kwh > 0 then
      result.add_warning "total_bill" "Consumption recorded but no bill amount" "MISSING_BILL"
    else result
  result

/-! ## Storage repair (`data_manager.py`) -/

namespace DataManager

/-- A JSON-ish value as held in the `DataManager._cache` under a month key:
month entries loaded from disk are arbitrary JSON, and `repair_data` guards
every month value with `isinstance(month_data, dict)`. -/
inductive Jv where
  | num (q : ℚ)
  | str (s : String)
  | boolean (b : Bool)
  | arr (l : List Jv)
  | obj (fields : List (String × Jv))

/-- The in-memory store: the year → (month-name → value) index, as
association lists in dict insertion order.  Year keys are integers (the
loader has already converted them; `repair_data`'s `isinstance(year, int)`
guard cannot fire in the typed embedding). -/
abbrev Store := List (Int × List (String × Jv))

/-- The fixed twelve-name calendar (`months_order`). -/
def months_order : List String :=
  ["Janeiro", "Fevereiro", "Março", "Abril", "Maio", "Junho",
   "Julho", "Agosto", "Setembro", "Outubro", "Novembro", "Dezembro"]

/-- The zeroed electricity dict `repair_data` fills in. -/
def elec_default : Jv :=
  .obj [("total_kwh", .num 0), ("casa2_kwh", .num 0), ("total_bill", .num 0)]

/-- The recurring-bills dict `repair_data` fills in (note the 67 default
percentage; no `gas` key). -/
def recurring_default : Jv :=
  .obj [("water", .num 0), ("internet", .num 0), ("casa2_percentage", .num 67)]

/-- The payments dict `repair_data` fills in. -/
def payments_default : Jv :=
  .obj [("casa1_paid", .num 0), ("casa2_paid", .num 0),
        ("payment_method", .str ""), ("notes", .str "")]

/-- `month_data[key] = dflt` when the key is missing (Python dict insertion
appends the new key at the end of the iteration order).  Returns the updated
dict and whether a fill happened. -/
def fill_field (fields : List (String × Jv)) (key : String) (dflt : Jv) :
    List (String × Jv) × Bool :=
  if (fields.lookup key).isNone then (fields ++ [(key, dflt)], true) else (fields, false)

/-- The per-month body of `repair_data`'s repair loop for a month that passed
the name/shape guards: fill the four required sub-records (each with its
message) and the two timestamps (no message, but they count as repairs).
Returns (repaired dict, messages, repairs made). -/
def repair_month (now : String) (year : Int) (name : String)
    (fields : List (String × Jv)) : List (String × Jv) × List String × Bool :=
  let s1 := fill_field fields "electricity" elec_default
  let m1 := if s1.2 then [s!"Added missing electricity data: {year}/{name}"] else []
  let s2 := fill_field s1.1 "recurring_bills" recurring_default
  let m2 := if s2.2 then [s!"Added missing recurring bills data: {year}/{name}"] else []
  let s3 := fill_field s2.1 "payments" payments_default
  let m3 := if s3.2 then [s!"Added missing payments data: {year}/{name}"] else []
  let s4 := fill_field s3.1 "occasional_expenses" (.arr [])
  let m4 := if s4.2 then [s!"Added missing occasional expenses: {year}/{name}"] else []
  let s5 := fill_field s4.1 "created_at" (.str now)
  let s6 := fill_field s5.1 "modified_at" (.str now)
  (s6.1, m1 ++ m2 ++ m3 ++ m4,
   s1.2 || s2.2 || s3.2 || s4.2 || s5.2 || s6.2)

/-- Whether a month value survives the guards of the repair loop: its name
must be one of the twelve calendar names and its value must be a dict. -/
def month_kept (name : String) (v : Jv) : Bool :=
  months_order.contains name && match v with | .obj _ => true | _ => false

/-- Result of one year's month loop: the surviving (repaired) entries in
iteration order, the fill messages, the collected invalid month names, and
whether any repair happened. -/
structure YearPass where
  kept : List (String × Jv)
  fill_msgs : List String
  removed : List String
  made : Bool

/-- The month loop of `repair_data` over one year's entries, in iteration
order: a month failing the name/shape guards is collected for removal
(`continue`); the others are repaired in place. -/
def repair_months (now : String) (year : Int) : List (String × Jv) → YearPass
  | [] => ⟨[], [], [], false⟩
  | (name, v) :: rest =>
    let r := repair_months now year rest
    if month_kept name v then
      match v with
      | .obj fields =>
        let m := repair_month now year name fields
        ⟨(name, .obj m.1) :: r.kept, m.2.1 ++ r.fill_msgs, r.removed, m.2.2 || r.made⟩
      | _ => ⟨(name, v) :: r.kept, r.fill_msgs, r.removed, r.made⟩
    else
      ⟨r.kept, r.fill_msgs, name :: r.removed, r.made⟩

/-- One year of `repair_data`: the removal messages come after the fill
messages of that year, as in the source (`invalid_months` are deleted after
the month loop).  Returns (repaired months, messages, repairs made). -/
def repair_year (now : String) (year : Int) (months : List (String × Jv)) :
    List (String × Jv) × List String × Bool :=
  let pass := repair_months now year months
  (pass.kept,
   pass.fill_msgs ++ pass.removed.map (fun n => s!"Removed invalid month: {year}/{n}"),
   pass.made || !pass.removed.isEmpty)

/-- The year loop of `repair_data` over the years that survived the range
check. -/
def repair_years (now : String) : Store → Store × List String × Bool
  | [] => ([], [], false)
  | (y, months) :: rest =>
    let yr := repair_year now y months
    let r := repair_years now rest
    ((y, yr.1) :: r.1, yr.2.1 ++ r.2.1, yr.2.2 || r.2.2)

/-- `DataManager.repair_data` (the body of its `try`; nothing in the
embedding can raise, so the `except` branch returning `False` is dead).
Returns `(success, repair messages, repaired store)`; the Python method
mutates `self._cache` in place, modelled here by returning the new store. -/
def repair_data (now : String) (cache : Store) : Bool × List String × Store :=
  let invalid_years := (cache.map Prod.fst).filter (fun y => y < 2000 ∨ y > 2100)
  let year_msgs := invalid_years.map (fun y => s!"Removed invalid year: {y}")
  let kept := cache.filter (fun p => ¬(p.1 < 2000 ∨ p.1 > 2100))
  let step := repair_years now kept
  let repairs_made := !invalid_years.isEmpty || step.2.2
  let messages := year_msgs ++ step.2.1
  let messages :=
    if repairs_made then messages ++ ["Data repairs completed successfully"] else messages
  (true, messages, step.1)

end DataManager

/-! ## Concrete records used by the theorems below -/

/-- A fixed-split expense (R$100 split 30/70) — claim C1's probe. -/
def expFixedC1 : OccasionalExpense :=
  { description := "sofa", amount := 100, split_method := SplitMethod.fixed,
    casa1_value := 30, casa2_value := 70, percentage := none,
    category := ExpenseCategory.furniture, date_added := 0, due_date := none,
    is_recurring := false, recurrence_months := 1 }

/-- An equal-split expense of one cent — exposes which house receives the
rounded half. -/
def expEqualC1 : OccasionalExpense :=
  { description := "pin", amount := 1 / 100, split_method := SplitMethod.equal,
    casa1_value := 0, casa2_value := 0, percentage := none,
    category := ExpenseCategory.other, date_added := 0, due_date := none,
    is_recurring := false, recurrence_months := 1 }

/-- A one-cent electricity bill split over 2 kWh, 1 kWh to Casa 2: the exact
shares are half a cent each, so the half-up tie shows which share is rounded
first. -/
def elecCexC2 : ElectricityData :=
  { total_kwh := 2, casa2_kwh := 1, total_bill := 1 / 100, rate_per_kwh := none }

/-- The spec scenario: 300 kWh total, 200 kWh Casa 2, bill 150. -/
def elecScenC2 : ElectricityData :=
  { total_kwh := 300, casa2_kwh := 200, total_bill := 150, rate_per_kwh := none }

/-- A recurring-bills record whose only positive bill is gas. -/
def rbGasC3 : RecurringBills :=
  { water := 0, internet := 0, gas := 10, casa2_percentage := 67 }

/-- The spec scenario: water 100, internet 50, Casa 2 percentage 67. -/
def rbScenC3 : RecurringBills :=
  { water := 100, internet := 50, gas := 0, casa2_percentage := 67 }

/-- A percentage-split expense of R$100 (claim C5's witness). -/
def expPctC5 : OccasionalExpense :=
  { description := "paint", amount := 100, split_method := SplitMethod.percentage,
    casa1_value := 0, casa2_value := 0, percentage := none,
    category := ExpenseCategory.maintenance, date_added := 0, due_date := none,
    is_recurring := false, recurrence_months := 1 }

/-- Water bill of 100 at 67% (claim C5's witness). -/
def rbC5 : RecurringBills :=
  { water := 100, internet := 0, gas := 0, casa2_percentage := 67 }

/-- A month record that passes every check of `MonthData.validate`. -/
def monthValidC6 : MonthData :=
  { year := 2024, month := "Janeiro",
    electricity := { total_kwh := 300, casa2_kwh := 200, total_bill := 150,
                     rate_per_kwh := none },
    recurring_bills := { water := 100, internet := 50, gas := 0, casa2_percentage := 67 },
    occasional_expenses := [],
    payments := { casa1_paid := 100, casa2_paid := 100 },
    created_at := 0, modified_at := 0, is_locked := false }

/-- A month record that is valid except that neither house paid anything. -/
def monthZeroPaidC10 : MonthData :=
  { year := 2024, month := "Fevereiro",
    electricity := { total_kwh := 300, casa2_kwh := 200, total_bill := 150,
                     rate_per_kwh := none },
    recurring_bills := { water := 100, internet := 50, gas := 0, casa2_percentage := 67 },
    occasional_expenses := [],
    payments := { casa1_paid := 0, casa2_paid := 0 },
    created_at := 0, modified_at := 0, is_locked := false }

/-- An electricity record whose only defect is a negative bill — every error
it triggers flows through `result.errors.extend(...)`. -/
def elecNegBillC7 : ElectricityData :=
  { total_kwh := 0, casa2_kwh := 0, total_bill := -1, rate_per_kwh := none }

/-- An electricity record with Casa 2 consumption above the total — this one
triggers `add_error` (`INVALID_PROPORTION`). -/
def elecPropC7 : ElectricityData :=
  { total_kwh := 1, casa2_kwh := 2, total_bill := 0, rate_per_kwh := none }

/-- Three months of history with totals 100, 200, 300 (oldest first). -/
def histC8 : List ExpenseCalculator.HistEntry :=
  [{ total_expenses := 100, casa1_should_pay := 0, casa2_should_pay := 0 },
   { total_expenses := 200, casa1_should_pay := 0, casa2_should_pay := 0 },
   { total_expenses := 300, casa1_should_pay := 0, casa2_should_pay := 0 }]

/-! ## Claim theorems -/

/-- C2 counterexample: on a valid record (2 kWh total, 1 kWh Casa 2, bill
R$0.01) the engine's Casa 2 amount is NOT round-half-up(bill × Casa-2
consumption ÷ total): the code rounds Casa 1's share (0.005 → 0.01) and
Casa 2 absorbs the remainder (0.00), while the claimed formula gives Casa 2
0.01. -/
theorem electricity_claim_counterexample :
    elecCexC2.total_kwh > 0 ∧
    (ExpenseCalculator.calculate_electricity elecCexC2).casa2 ≠
      quantize2 (elecCexC2.total_bill * (elecCexC2.casa2_kwh / elecCexC2.total_kwh)) := by
  constructor
  · norm_num [elecCexC2]
  · norm_num [elecCexC2, ExpenseCalculator.calculate_electricity, quantize2,
      roundHalfUpCents]

/-- C2 (amended): with zero total consumption all split amounts are zero;
with nonzero total consumption the HOUSE1 amount equals round-half-up(total
bill × House1 consumption ÷ total consumption), House2 receives the bill
minus House1's rounded share (House2 absorbs the rounding remainder), and
the two amounts sum exactly to the bill. -/
theorem electricity_split_amended (e : ElectricityData) :
    (e.total_kwh = 0 →
      (ExpenseCalculator.calculate_electricity e).casa1 = 0 ∧
      (ExpenseCalculator.calculate_electricity e).casa2 = 0 ∧
      (ExpenseCalculator.calculate_electricity e).total = 0) ∧
    (e.total_kwh ≠ 0 →
      (ExpenseCalculator.calculate_electricity e).casa1 =
        quantize2 (e.total_bill * ((e.total_kwh - e.casa2_kwh) / e.total_kwh)) ∧
      (ExpenseCalculator.calculate_electricity e).casa2 =
        e.total_bill - (ExpenseCalculator.calculate_electricity e).casa1 ∧
      (ExpenseCalculator.calculate_electricity e).casa1 +
        (ExpenseCalculator.calculate_electricity e).casa2 = e.total_bill) := by
  constructor
  · intro h
    simp [ExpenseCalculator.calculate_electricity, h]
  · intro h
    unfold ExpenseCalculator.calculate_electricity
    rw [if_neg h]
    exact ⟨rfl, rfl, by ring⟩

/-- C2 witness: the spec scenario (300 kWh, 200 kWh Casa 2, bill 150) gives
Casa 1 = 50 and Casa 2 = 100. -/
theorem electricity_split_amended_witness :
    (ExpenseCalculator.calculate_electricity elecScenC2).casa1 = 50 ∧
    (ExpenseCalculator.calculate_electricity elecScenC2).casa2 = 100 := by
  have h := (electricity_split_amended elecScenC2).2 (by norm_num [elecScenC2])
  have h1 : (ExpenseCalculator.calculate_electricity elecScenC2).casa1 = 50 := by
    rw [h.1]; norm_num [elecScenC2, quantize2, roundHalfUpCents]
  refine ⟨h1, ?_⟩
  rw [h.2.1, h1]; norm_num [elecScenC2]

/-- C3 counterexample: a record whose only positive bill is gas produces an
empty result — no `gas_casa2` (nor any other) entry is ever assigned,
although the claim requires gas to be split like water and internet. -/
theorem recurring_gas_counterexample :
    rbGasC3.gas > 0 ∧
    (ExpenseCalculator.calculate_recurring_bills rbGasC3).lookup "gas_casa2" = none ∧
    ExpenseCalculator.calculate_recurring_bills rbGasC3 = [] := by
  refine ⟨by norm_num [rbGasC3], ?_, ?_⟩ <;>
    norm_num [rbGasC3, ExpenseCalculator.calculate_recurring_bills]

/-- C3 (amended): for water and internet with positive amounts the engine
assigns House2 = round-half-up(bill × House2 percentage ÷ 100) and House1 =
bill − House2; gas is never split — the result carries no gas entries at
all. -/
theorem recurring_bills_amended (rb : RecurringBills) :
    (rb.water > 0 →
      (ExpenseCalculator.calculate_recurring_bills rb).lookup "water_casa2" =
        some (quantize2 (rb.water * (rb.casa2_percentage / 100))) ∧
      (ExpenseCalculator.calculate_recurring_bills rb).lookup "water_casa1" =
        some (rb.water - quantize2 (rb.water * (rb.casa2_percentage / 100)))) ∧
    (rb.internet > 0 →
      (ExpenseCalculator.calculate_recurring_bills rb).lookup "internet_casa2" =
        some (quantize2 (rb.internet * (rb.casa2_percentage / 100))) ∧
      (ExpenseCalculator.calculate_recurring_bills rb).lookup "internet_casa1" =
        some (rb.internet - quantize2 (rb.internet * (rb.casa2_percentage / 100)))) ∧
    ((ExpenseCalculator.calculate_recurring_bills rb).lookup "gas_casa1" = none ∧
     (ExpenseCalculator.calculate_recurring_bills rb).lookup "gas_casa2" = none ∧
     (ExpenseCalculator.calculate_recurring_bills rb).lookup "gas_total" = none) := by
  by_cases hw : rb.water > 0 <;> by_cases hi : rb.internet > 0 <;>
    simp [ExpenseCalculator.calculate_recurring_bills, hw, hi, List.lookup]

/-- C3 witness: the spec scenario (water 100, internet 50, 67%) yields
water 67/33 and internet 33.50/16.50. -/
theorem recurring_bills_amended_witness :
    (ExpenseCalculator.calculate_recurring_bills rbScenC3).lookup "water_casa2" = some 67 ∧
    (ExpenseCalculator.calculate_recurring_bills rbScenC3).lookup "water_casa1" = some 33 ∧
    (ExpenseCalculator.calculate_recurring_bills rbScenC3).lookup "internet_casa2" =
      some (67 / 2) ∧
    (ExpenseCalculator.calculate_recurring_bills rbScenC3).lookup "internet_casa1" =
      some (33 / 2) := by
  have h := recurring_bills_amended rbScenC3
  have hw := h.1 (by norm_num [rbScenC3])
  have hi := h.2.1 (by norm_num [rbScenC3])
  refine ⟨?_, ?_, ?_, ?_⟩
  · rw [hw.1]; norm_num [rbScenC3, quantize2, roundHalfUpCents]
  · rw [hw.2]; norm_num [rbScenC3, quantize2, roundHalfUpCents]
  · rw [hi.1]; norm_num [rbScenC3, quantize2, roundHalfUpCents]
  · rw [hi.2]; norm_num [rbScenC3, quantize2, roundHalfUpCents]

/-- C1 counterexample: the engine splits the fixed 30/70 expense 33/67 (the
month default percentage), not at its stored values; and for the equal
method the model's own `calculate_split` gives HOUSE1 the rounded half
(House1 = 0.01 on a one-cent expense), not `amount - half` as claimed. -/
theorem occasional_split_claim_counterexample :
    expFixedC1.split_method = SplitMethod.fixed ∧
    expFixedC1.casa1_value = 30 ∧ expFixedC1.casa2_value = 70 ∧
    (ExpenseCalculator.calc_occasional_item expFixedC1 67).casa1 = 33 ∧
    (ExpenseCalculator.calc_occasional_item expFixedC1 67).casa2 = 67 ∧
    (ExpenseCalculator.calc_occasional_item expFixedC1 67).casa1 ≠ expFixedC1.casa1_value ∧
    expEqualC1.split_method = SplitMethod.equal ∧
    (expEqualC1.calculate_split (some 67)).1 ≠
      expEqualC1.amount - quantize2 (expEqualC1.amount / 2) := by
  refine ⟨rfl, rfl, rfl, ?_, ?_, ?_, rfl, ?_⟩ <;>
    norm_num [expFixedC1, expEqualC1, ExpenseCalculator.calc_occasional_item,
      ExpenseCalculator.splitMethodEqStr, OccasionalExpense.calculate_split,
      quantize2, roundHalfUpCents]

/-- C1 (amended): the engine (`_calculate_occasional_expenses`) splits EVERY
occasional expense — regardless of split method or override — as a
percentage split at the month default: House2 = round-half-up(amount ×
default ÷ 100), House1 = amount − House2 (its fixed-method test compares the
enum to a string and never matches).  The model's `calculate_split`, not
called by the engine, does resolve by variant: Fixed returns the stored
pair, Equal gives HOUSE1 the rounded half and House2 the remainder, and
Percentage rounds House2 using the expense's override if present, else the
supplied default. -/
theorem occasional_split_amended (e : OccasionalExpense) (d : ℚ) :
    ((ExpenseCalculator.calc_occasional_item e d).casa2 =
        quantize2 (e.amount * (d / 100)) ∧
     (ExpenseCalculator.calc_occasional_item e d).casa1 =
        e.amount - quantize2 (e.amount * (d / 100)) ∧
     (ExpenseCalculator.calc_occasional_item e d).total = e.amount) ∧
    (e.split_method = SplitMethod.fixed →
      e.calculate_split (some d) = (e.casa1_value, e.casa2_value)) ∧
    (e.split_method = SplitMethod.equal →
      e.calculate_split (some d) =
        (quantize2 (e.amount / 2), e.amount - quantize2 (e.amount / 2))) ∧
    (e.split_method = SplitMethod.percentage →
      e.calculate_split (some d) =
        (e.amount - quantize2 (e.amount * (e.percentage.getD d) / 100),
         quantize2 (e.amount * (e.percentage.getD d) / 100))) := by
  refine ⟨⟨?_, ?_, ?_⟩, ?_, ?_, ?_⟩
  · simp [ExpenseCalculator.calc_occasional_item, ExpenseCalculator.splitMethodEqStr]
  · simp [ExpenseCalculator.calc_occasional_item, ExpenseCalculator.splitMethodEqStr]
  · simp [ExpenseCalculator.calc_occasional_item, ExpenseCalculator.splitMethodEqStr]
  · intro h; simp [OccasionalExpense.calculate_split, h]
  · intro h; simp [OccasionalExpense.calculate_split, h]
  · intro h
    cases hp : e.percentage <;>
      simp [OccasionalExpense.calculate_split, h, hp]

/-- C1 witness: on the one-cent equal expense the engine computes 0.0033 →
House2 0.00 / House1 0.01 at the 67 default, and `calculate_split` puts the
rounded half cent on House1. -/
theorem occasional_split_amended_witness :
    (ExpenseCalculator.calc_occasional_item expEqualC1 67).casa2 =
      quantize2 (expEqualC1.amount * (67 / 100)) ∧
    expEqualC1.calculate_split (some 67) = (1 / 100, 0) := by
  have h := occasional_split_amended expEqualC1 67
  refine ⟨h.1.1, ?_⟩
  have he := h.2.2.1 rfl
  rw [he]
  norm_num [expEqualC1, quantize2, roundHalfUpCents]

/-- C4: the balance step computes month-balance = (House2 obligation −
House2 paid) − (House1 obligation − House1 paid), and carries the previous
balance asymmetrically: subtracted from House1's final amount, added to
House2's. -/
theorem balances_formulas (casa1_should casa2_should : ℚ) (p : Payment) (b : ℚ) :
    (ExpenseCalculator.calculate_balances casa1_should casa2_should p b).month_balance =
      (casa2_should - p.casa2_paid) - (casa1_should - p.casa1_paid) ∧
    (ExpenseCalculator.calculate_balances casa1_should casa2_should p b).final_house1 =
      (casa1_should - p.casa1_paid) - b ∧
    (ExpenseCalculator.calculate_balances casa1_should casa2_should p b).final_house2 =
      (casa2_should - p.casa2_paid) + b :=
  ⟨rfl, rfl, rfl⟩

/-- C5: every percentage-style split sums exactly to the amount — the model's
`calculate_split` for the equal and percentage variants, the engine's
per-expense split, and the water/internet recurring splits. -/
theorem percentage_splits_sum_exact (A p : ℚ) (hp0 : 0 ≤ p) (hp1 : p ≤ 100)
    (hA : 0 ≤ A) :
    (∀ (e : OccasionalExpense) (d : Option ℚ), e.amount = A →
        e.split_method ≠ SplitMethod.fixed →
        (e.calculate_split d).1 + (e.calculate_split d).2 = A) ∧
    (∀ e : OccasionalExpense, e.amount = A →
        (ExpenseCalculator.calc_occasional_item e p).casa1 +
          (ExpenseCalculator.calc_occasional_item e p).casa2 = A) ∧
    (∀ rb : RecurringBills, rb.water = A → 0 < A →
        ((ExpenseCalculator.calculate_recurring_bills rb).lookup "water_casa1").getD 0 +
          ((ExpenseCalculator.calculate_recurring_bills rb).lookup "water_casa2").getD 0
          = A) ∧
    (∀ rb : RecurringBills, rb.internet = A → 0 < A →
        ((ExpenseCalculator.calculate_recurring_bills rb).lookup "internet_casa1").getD 0 +
          ((ExpenseCalculator.calculate_recurring_bills rb).lookup "internet_casa2").getD 0
          = A) := by
  refine ⟨?_, ?_, ?_, ?_⟩
  · intro e d hA' hm
    cases hsm : e.split_method with
    | fixed => exact absurd hsm hm
    | equal =>
      simp [OccasionalExpense.calculate_split, hsm, hA']
    | percentage =>
      cases hp' : e.percentage <;> cases d <;>
        simp [OccasionalExpense.calculate_split, hsm, hp', hA']
  · intro e hA'
    simp [ExpenseCalculator.calc_occasional_item, ExpenseCalculator.splitMethodEqStr, hA']
  · intro rb hw h0
    have hw' : rb.water > 0 := by rw [hw]; exact h0
    by_cases hi : rb.internet > 0 <;>
      simp [ExpenseCalculator.calculate_recurring_bills, hw', hi, List.lookup, hw, h0]
  · intro rb hi h0
    have hi' : rb.internet > 0 := by rw [hi]; exact h0
    by_cases hw : rb.water > 0 <;>
      simp [ExpenseCalculator.calculate_recurring_bills, hw, hi', List.lookup, hi, h0]

/-- C5 witness: at amount 100 and percentage 67 the percentage-method
expense and the water split both sum exactly to 100. -/
theorem percentage_splits_sum_exact_witness :
    (expPctC5.calculate_split (some 67)).1 + (expPctC5.calculate_split (some 67)).2
      = 100 ∧
    ((ExpenseCalculator.calculate_recurring_bills rbC5).lookup "water_casa1").getD 0 +
      ((ExpenseCalculator.calculate_recurring_bills rbC5).lookup "water_casa2").getD 0
      = 100 := by
  have h := percentage_splits_sum_exact 100 67 (by norm_num) (by norm_num) (by norm_num)
  exact ⟨h.1 expPctC5 (some 67) rfl (by simp [expPctC5]),
    h.2.2.1 rbC5 rfl (by norm_num)⟩

/-- C6: `calculate_month` raises even on a record that passes validation.
`monthValidC6.validate` is empty, yet the call fails: after the validation
gate, `CalculationResult(previous_balance=...)` passes a keyword that names
a read-only property rather than an `__init__` field, so Python raises
`TypeError` for every input. -/
theorem calculate_month_always_raises :
    monthValidC6.validate = [] ∧
    ExpenseCalculator.calculate_month monthValidC6 0 =
      Except.error "TypeError: CalculationResult.__init__() got an unexpected keyword argument: previous_balance" := by
  have hmth : ("Janeiro" : String) ≠ "" := by decide
  have hv : monthValidC6.validate = [] := by
    norm_num [monthValidC6, MonthData.validate, ElectricityData.validate,
      RecurringBills.validate, Payment.validate, Payment.total_paid,
      OccasionalExpense.validate, hmth]
  exact ⟨hv, by simp [ExpenseCalculator.calculate_month, hv]⟩

/-- C8: on history with totals 100, 200, 300 (oldest first) the projection
is 170 — the 0.5 weight lands on the OLDEST month — while the claimed
most-recent-first weighting gives 230. -/
theorem projection_weights_eval :
    (ExpenseCalculator.project_next_month histC8 0).estimated_total = 170 ∧
    ((1 : ℚ) / 2) * 300 + (3 / 10) * 200 + (1 / 5) * 100 = 230 ∧
    (ExpenseCalculator.project_next_month histC8 0).estimated_total ≠ 230 := by
  have h : (ExpenseCalculator.project_next_month histC8 0).estimated_total = 170 := by
    norm_num [histC8, ExpenseCalculator.project_next_month, ExpenseCalculator.lastN,
      List.enum, List.enumFrom, List.foldl, List.getD]
    simp
  refine ⟨h, by norm_num, by rw [h]; norm_num⟩

/-- C10: a month in which neither house paid anything always fails the
validation gate — `Payment.validate` emits the zero-total-payment message as
an ERROR, so `calculate_month` raises instead of calculating. -/
theorem zero_payments_always_raise (m : MonthData) (b : ℚ)
    (h1 : m.payments.casa1_paid = 0) (h2 : m.payments.casa2_paid = 0) :
    "At least one payment must be greater than zero" ∈ m.validate ∧
    ∃ msg, ExpenseCalculator.calculate_month m b = Except.error msg := by
  have hmem : "At least one payment must be greater than zero" ∈ m.payments.validate := by
    simp [Payment.validate, Payment.total_paid, h1, h2]
  have hmem2 : "At least one payment must be greater than zero" ∈ m.validate := by
    simp only [MonthData.validate, List.mem_append]
    tauto
  refine ⟨hmem2, ?_⟩
  have hne : m.validate ≠ [] := List.ne_nil_of_mem hmem2
  refine ⟨"Data validation failed: " ++ String.intercalate ", " m.validate, ?_⟩
  simp [ExpenseCalculator.calculate_month, hne]

/-- C10 witness: the concrete zero-payment February 2024 record carries the
error and makes `calculate_month` raise. -/
theorem zero_payments_always_raise_witness :
    "At least one payment must be greater than zero" ∈ monthZeroPaidC10.validate ∧
    ∃ msg, ExpenseCalculator.calculate_month monthZeroPaidC10 0 = Except.error msg :=
  zero_payments_always_raise monthZeroPaidC10 0 rfl rfl

/-! ### C7 — `is_valid` versus the errors list -/

/-- The safety direction that does hold of `ValidationResult`: a false
`is_valid` is always backed by at least one recorded error. -/
def SaneVR (r : ValidationResult) : Prop := r.is_valid = false → r.errors ≠ []

theorem saneVR_init : SaneVR ValidationResult.init := by
  simp [SaneVR, ValidationResult.init]

theorem saneVR_extend (r : ValidationResult) (es : List ValidationError)
    (h : SaneVR r) : SaneVR (r.extend_errors es) := by
  simp only [SaneVR, ValidationResult.extend_errors]
  intro hv heq
  rcases List.append_eq_nil.mp heq with ⟨h1, _⟩
  exact h hv h1

theorem saneVR_add_error (r : ValidationResult) (f m c : String) :
    SaneVR (r.add_error f m c) := by
  simp only [SaneVR, ValidationResult.add_error]
  intro _ heq
  rcases List.append_eq_nil.mp heq with ⟨_, h2⟩
  simp at h2

theorem saneVR_add_warning (r : ValidationResult) (f m c : String)
    (h : SaneVR r) : SaneVR (r.add_warning f m c) := by
  simp only [SaneVR, ValidationResult.add_warning]
  exact h

theorem saneVR_ite (c : Prop) [Decidable c] (a b : ValidationResult)
    (ha : SaneVR a) (hb : SaneVR b) : SaneVR (if c then a else b) := by
  split <;> assumption

/-- C7 counterexample: on a record whose only defect is a negative bill
(`total_bill = -1`), `ElectricityValidator.validate` returns a result with
two errors in its list and `is_valid` still `True` — the range-check errors
flow through `result.errors.extend(...)`, which never updates `is_valid`. -/
theorem validation_is_valid_counterexample :
    (ElectricityValidator.validate false elecNegBillC7).is_valid = true ∧
    (ElectricityValidator.validate false elecNegBillC7).errors ≠ [] := by
  norm_num [elecNegBillC7, ElectricityValidator.validate, validate_decimal_range,
    ValidationResult.init, ValidationResult.extend_errors, ValidationResult.add_error,
    ValidationResult.add_warning]
  simp

/-- C7 (amended): only one direction of the claimed equivalence holds —
`is_valid = False` implies the errors list is non-empty, and `add_warning`
changes neither `is_valid` nor the errors list; the converse fails because
the validators extend the errors list directly without updating
`is_valid`. -/
theorem validation_is_valid_amended :
    (∀ (strict : Bool) (d : ElectricityData),
        (ElectricityValidator.validate strict d).is_valid = false →
        (ElectricityValidator.validate strict d).errors ≠ []) ∧
    (∀ (r : ValidationResult) (f msg code : String),
        (r.add_warning f msg code).is_valid = r.is_valid ∧
        (r.add_warning f msg code).errors = r.errors) := by
  constructor
  · intro strict d
    show SaneVR (ElectricityValidator.validate strict d)
    unfold ElectricityValidator.validate
    cases hr : d.rate_per_kwh <;>
      dsimp only <;>
      repeat' first
        | apply saneVR_ite
        | apply saneVR_add_warning
        | apply saneVR_add_error
        | apply saneVR_extend
        | exact saneVR_init
  · intro r f msg code
    exact ⟨rfl, rfl⟩

/-- C7 witness: the record with Casa 2 consumption above the total triggers
`add_error`, so its `is_valid` is false and the amended theorem yields a
non-empty error list; `add_warning` on a fresh result leaves `is_valid`
true. -/
theorem validation_is_valid_amended_witness :
    (ElectricityValidator.validate false elecPropC7).errors ≠ [] ∧
    (ValidationResult.init.add_warning "f" "m" "c").is_valid =
      ValidationResult.init.is_valid := by
  refine ⟨validation_is_valid_amended.1 false elecPropC7 ?_,
    (validation_is_valid_amended.2 ValidationResult.init "f" "m" "c").1⟩
  norm_num [elecPropC7, ElectricityValidator.validate, validate_decimal_range,
    ValidationResult.init, ValidationResult.extend_errors, ValidationResult.add_error,
    ValidationResult.add_warning]

/-! ### C9 — repair: removal characterization, filling, idempotence -/

namespace DataManager

/-- `lookup` distributes over append: the left list wins. -/
theorem lookup_append_eq {α β : Type} [BEq α] (k : α) (l₁ l₂ : List (α × β)) :
    (l₁ ++ l₂).lookup k =
      match l₁.lookup k with
      | some v => some v
      | none => l₂.lookup k := by
  induction l₁ with
  | nil => simp [List.lookup]
  | cons p rest ih =>
    obtain ⟨a, b⟩ := p
    by_cases h : k == a
    · simp [List.lookup, h]
    · simp only [List.cons_append, List.lookup]
      rw [Bool.eq_false_iff.mpr h]
      exact ih

theorem fill_field_of_present {fields : List (String × Jv)} {k : String} (d : Jv)
    (h : (fields.lookup k).isSome) : fill_field fields k d = (fields, false) := by
  have hn : (fields.lookup k).isNone = false := by
    cases hl : fields.lookup k <;> simp_all
  unfold fill_field
  simp [hn]

theorem fill_field_self (fields : List (String × Jv)) (k : String) (d : Jv) :
    (((fill_field fields k d).1).lookup k).isSome := by
  unfold fill_field
  split
  · rename_i h
    have hnone : fields.lookup k = none := by
      cases hl : fields.lookup k <;> simp_all
    rw [lookup_append_eq, hnone]
    simp [List.lookup]
  · rename_i h
    cases hl : fields.lookup k <;> simp_all

theorem fill_field_mono (fields : List (String × Jv)) (k k' : String) (d : Jv)
    (h : ((fields.lookup k')).isSome) :
    (((fill_field fields k d).1).lookup k').isSome := by
  unfold fill_field
  split
  · obtain ⟨v, hv⟩ := Option.isSome_iff_exists.mp h
    rw [lookup_append_eq, hv]
    simp
  · exact h

/-- A month dict carrying all four required sub-records and both
timestamps. -/
def MonthFilled (fields : List (String × Jv)) : Prop :=
  ((fields.lookup "electricity").isSome) ∧
  ((fields.lookup "recurring_bills").isSome) ∧
  ((fields.lookup "payments").isSome) ∧
  ((fields.lookup "occasional_expenses").isSome) ∧
  ((fields.lookup "created_at").isSome) ∧
  ((fields.lookup "modified_at").isSome)

theorem repair_month_filled (now : String) (year : Int) (name : String)
    (fields : List (String × Jv)) :
    MonthFilled (repair_month now year name fields).1 := by
  unfold repair_month
  dsimp only
  exact ⟨fill_field_mono _ _ _ _ (fill_field_mono _ _ _ _ (fill_field_mono _ _ _ _
          (fill_field_mono _ _ _ _ (fill_field_mono _ _ _ _ (fill_field_self _ _ _))))),
        fill_field_mono _ _ _ _ (fill_field_mono _ _ _ _ (fill_field_mono _ _ _ _
          (fill_field_mono _ _ _ _ (fill_field_self _ _ _)))),
        fill_field_mono _ _ _ _ (fill_field_mono _ _ _ _ (fill_field_mono _ _ _ _
          (fill_field_self _ _ _))),
        fill_field_mono _ _ _ _ (fill_field_mono _ _ _ _ (fill_field_self _ _ _)),
        fill_field_mono _ _ _ _ (fill_field_self _ _ _),
        fill_field_self _ _ _⟩

theorem repair_month_of_filled (now : String) (year : Int) (name : String)
    (fields : List (String × Jv)) (h : MonthFilled fields) :
    repair_month now year name fields = (fields, [], false) := by
  obtain ⟨h1, h2, h3, h4, h5, h6⟩ := h
  unfold repair_month
  simp [fill_field_of_present _ h1, fill_field_of_present _ h2,
    fill_field_of_present _ h3, fill_field_of_present _ h4,
    fill_field_of_present _ h5, fill_field_of_present _ h6]

theorem repair_months_kept (now : String) (year : Int)
    (months : List (String × Jv)) :
    ∀ q ∈ (repair_months now year months).kept,
      month_kept q.1 q.2 = true ∧
      ∃ f, q.2 = Jv.obj f ∧ MonthFilled f := by
  induction months with
  | nil => simp [repair_months]
  | cons p rest ih =>
    obtain ⟨name, v⟩ := p
    by_cases hk : month_kept name v = true
    · cases v with
      | obj fields =>
        intro q hq
        simp only [repair_months, hk, if_true] at hq
        rcases List.mem_cons.mp hq with rfl | hq'
        · refine ⟨?_, _, rfl, repair_month_filled now year name fields⟩
          unfold month_kept at hk ⊢
          simpa using hk
        · exact ih q hq'
      | num x => simp [month_kept] at hk
      | str s => simp [month_kept] at hk
      | boolean b => simp [month_kept] at hk
      | arr l => simp [month_kept] at hk
    · intro q hq
      simp only [repair_months, hk, if_false, Bool.false_eq_true] at hq
      exact ih q hq

theorem repair_months_keys (now : String) (year : Int)
    (months : List (String × Jv)) :
    (repair_months now year months).kept.map Prod.fst =
      (months.filter (fun q => month_kept q.1 q.2)).map Prod.fst := by
  induction months with
  | nil => rfl
  | cons p rest ih =>
    obtain ⟨name, v⟩ := p
    by_cases hk : month_kept name v = true
    · cases v with
      | obj fields => simp [repair_months, hk, List.filter_cons, ih]
      | num x => simp [month_kept] at hk
      | str s => simp [month_kept] at hk
      | boolean b => simp [month_kept] at hk
      | arr l => simp [month_kept] at hk
    · simp [repair_months, hk, List.filter_cons, ih]

theorem repair_months_of_good (now : String) (year : Int)
    (months : List (String × Jv))
    (h : ∀ q ∈ months, month_kept q.1 q.2 = true ∧
      ∃ f, q.2 = Jv.obj f ∧ MonthFilled f) :
    repair_months now year months = ⟨months, [], [], false⟩ := by
  induction months with
  | nil => rfl
  | cons p rest ih =>
    obtain ⟨name, v⟩ := p
    obtain ⟨hk, f, hf, hfill⟩ := h (name, v) (by simp)
    subst hf
    have hrest := ih (fun q hq => h q (by simp [hq]))
    simp [repair_months, hk, hrest, repair_month_of_filled now year name f hfill]

theorem repair_year_of_good (now : String) (year : Int)
    (months : List (String × Jv))
    (h : ∀ q ∈ months, month_kept q.1 q.2 = true ∧
      ∃ f, q.2 = Jv.obj f ∧ MonthFilled f) :
    repair_year now year months = (months, [], false) := by
  unfold repair_year
  rw [repair_months_of_good now year months h]
  simp

theorem repair_years_of_good (now : String) (s : Store)
    (h : ∀ p ∈ s, ∀ q ∈ p.2, month_kept q.1 q.2 = true ∧
      ∃ f, q.2 = Jv.obj f ∧ MonthFilled f) :
    repair_years now s = (s, [], false) := by
  induction s with
  | nil => rfl
  | cons a rest ih =>
    have ha := h a (by simp)
    have hrest := ih (fun p hp => h p (by simp [hp]))
    obtain ⟨y, months⟩ := a
    simp [repair_years, hrest, repair_year_of_good now y months ha]

theorem repair_years_mem (now : String) (s : Store) :
    ∀ p ∈ (repair_years now s).1,
      ∃ q, q ∈ s ∧ p = (q.1, (repair_year now q.1 q.2).1) := by
  induction s with
  | nil => simp [repair_years]
  | cons a rest ih =>
    obtain ⟨y, months⟩ := a
    intro p hp
    simp only [repair_years, List.mem_cons] at hp
    rcases hp with rfl | hp'
    · exact ⟨(y, months), by simp, rfl⟩
    · obtain ⟨q, hq, hpq⟩ := ih p hp'
      exact ⟨q, by simp [hq], hpq⟩

theorem repair_years_keys (now : String) (s : Store) :
    (repair_years now s).1.map Prod.fst = s.map Prod.fst := by
  induction s with
  | nil => rfl
  | cons a rest ih =>
    obtain ⟨y, months⟩ := a
    simp [repair_years, ih]

/-- A store every entry of which already passes all the repair guards. -/
def StoreRepaired (s : Store) : Prop :=
  ∀ p ∈ s, (2000 ≤ p.1 ∧ p.1 ≤ 2100) ∧
    ∀ q ∈ p.2, month_kept q.1 q.2 = true ∧
      ∃ f, q.2 = Jv.obj f ∧ MonthFilled f

theorem keys_filter_range (s : Store) :
    (s.filter (fun p => ¬(p.1 < 2000 ∨ p.1 > 2100))).map Prod.fst =
      (s.map Prod.fst).filter (fun y => 2000 ≤ y ∧ y ≤ 2100) := by
  induction s with
  | nil => rfl
  | cons a rest ih =>
    simp only [List.map_cons, List.filter_cons]
    by_cases h : 2000 ≤ a.1 ∧ a.1 ≤ 2100
    · have h' : ¬(a.1 < 2000 ∨ a.1 > 2100) := by omega
      rw [decide_eq_true h, decide_eq_true h']
      simp only [if_true, List.map_cons]
      rw [ih]
    · have h' : a.1 < 2000 ∨ a.1 > 2100 := by omega
      rw [decide_eq_false (not_not_intro h'), decide_eq_false h]
      simp only [Bool.false_eq_true, if_false]
      exact ih

theorem repair_data_repaired (now : String) (s : Store) :
    StoreRepaired (repair_data now s).2.2 := by
  intro p hp
  have hp' : p ∈ (repair_years now
      (s.filter (fun p => ¬(p.1 < 2000 ∨ p.1 > 2100)))).1 := hp
  obtain ⟨q, hq, rfl⟩ := repair_years_mem now _ p hp'
  have hqmem := List.mem_filter.mp hq
  constructor
  · have := hqmem.2
    simp only [decide_eq_true_eq] at this
    omega
  · intro r hr
    exact repair_months_kept now q.1 q.2 r hr

theorem repair_data_of_repaired (now : String) (s : Store)
    (h : StoreRepaired s) : repair_data now s = (true, [], s) := by
  have hfilt : (s.map Prod.fst).filter (fun y => y < 2000 ∨ y > 2100) = [] := by
    rw [List.filter_eq_nil_iff]
    intro y hy
    obtain ⟨p, hp, rfl⟩ := List.mem_map.mp hy
    have := (h p hp).1
    simp only [decide_eq_true_eq]
    omega
  have hkept : s.filter (fun p => ¬(p.1 < 2000 ∨ p.1 > 2100)) = s := by
    rw [List.filter_eq_self]
    intro p hp
    have := (h p hp).1
    simp only [decide_eq_true_eq]
    omega
  unfold repair_data
  dsimp only
  rw [hfilt, hkept, repair_years_of_good now s (fun p hp => (h p hp).2)]
  simp

end DataManager

/-- The store claimed-C9 stumbles on: the calendar-named month `Janeiro`
holds a non-dict value. -/
def storeCexC9 : DataManager.Store := [(2020, [("Janeiro", DataManager.Jv.num 0)])]

/-- The one-year, one-empty-month store driving the C9 witness. -/
def storeWitC9 : DataManager.Store := [(2021, [("Maio", DataManager.Jv.obj [])])]

/-- The month dict the repair produces from an empty `Maio` dict. -/
def monthObjWitC9 : DataManager.Jv :=
  .obj [("electricity", DataManager.elec_default),
        ("recurring_bills", DataManager.recurring_default),
        ("payments", DataManager.payments_default),
        ("occasional_expenses", .arr []),
        ("created_at", .str "ts1"), ("modified_at", .str "ts1")]

/-- C9 counterexample: repair removes the month `Janeiro` — a name inside
the twelve-name calendar — because its value is not a dict, so the removals
are NOT exactly the out-of-range years plus the out-of-calendar month
names. -/
theorem repair_claim_counterexample :
    "Janeiro" ∈ DataManager.months_order ∧
    (DataManager.repair_data "t0" storeCexC9).2.2 = [(2020, [])] ∧
    (DataManager.repair_data "t0" storeCexC9).2.1 =
      ["Removed invalid month: 2020/Janeiro", "Data repairs completed successfully"] := by
  refine ⟨by simp [DataManager.months_order], rfl, rfl⟩

/-- C9 (amended): repair removes exactly the out-of-range year keys and the
month entries that fail the name-or-shape guard (out-of-calendar name OR
non-dict value); every surviving month ends up with all four required
sub-records (and both timestamps) present; and repair is idempotent — a
second pass returns the same store with no messages. -/
theorem repair_amended (now now2 : String) (s : DataManager.Store) :
    ((DataManager.repair_data now s).2.2.map Prod.fst =
      (s.map Prod.fst).filter (fun y => 2000 ≤ y ∧ y ≤ 2100)) ∧
    (∀ (year : Int) (months : List (String × DataManager.Jv)),
      (DataManager.repair_year now year months).1.map Prod.fst =
        (months.filter (fun q => DataManager.month_kept q.1 q.2)).map Prod.fst) ∧
    (∀ p ∈ (DataManager.repair_data now s).2.2, ∀ q ∈ p.2,
      ∃ fields, q.2 = DataManager.Jv.obj fields ∧ DataManager.MonthFilled fields) ∧
    (DataManager.repair_data now2 (DataManager.repair_data now s).2.2 =
      (true, [], (DataManager.repair_data now s).2.2)) := by
  refine ⟨?_, ?_, ?_, ?_⟩
  · show (DataManager.repair_years now _).1.map Prod.fst = _
    rw [DataManager.repair_years_keys, DataManager.keys_filter_range]
  · intro year months
    exact DataManager.repair_months_keys now year months
  · intro p hp q hq
    exact ((DataManager.repair_data_repaired now s p hp).2 q hq).2
  · exact DataManager.repair_data_of_repaired now2 _
      (DataManager.repair_data_repaired now s)

/-- C9 witness: repairing the store whose `Maio` dict is empty fills all
required sub-records, witnessed through the amended theorem's third
conjunct. -/
theorem repair_amended_witness :
    ∃ fields, monthObjWitC9 = DataManager.Jv.obj fields ∧
      DataManager.MonthFilled fields := by
  have hcomp : (DataManager.repair_data "ts1" storeWitC9).2.2 =
      [(2021, [("Maio", monthObjWitC9)])] := rfl
  exact (repair_amended "ts1" "x" storeWitC9).2.2.1
    (2021, [("Maio", monthObjWitC9)]) (by rw [hcomp]; simp)
    ("Maio", monthObjWitC9) (by simp)

end AppContas
